import Mathlib

/-!
Verification development for the MaxQ CSPICE wrapper layer.

The repository exposes NASA's CSPICE toolkit to Unreal Engine through the
USpice blueprint function library declared in
Plugins/MaxQ/Source/Spice/Public/Spice.h.  This file gives a shallow
embedding of the layer the specification describes: the error-translating
call wrapper mapping CSPICE's global error state onto structured
(ResultCode, ErrorMessage) results, the found/not-found taxonomy of
search-style calls, the signature table of the 336 declared entry points,
the zero-initialised payload types exercised by the repository's tests, and
the two concrete routines whose semantics the header documents (bsrchd and
clight).  The wrapper implementations (Spice.cpp) and the payload type
definitions (SpiceTypes.h) are not part of the repository, so those parts
are modelled from the specification, as marked in doc comments.
-/

/-- Result code of a wrapper call: the enumeration ES_ResultCode used by the
USpice entry points in Spice.h is modelled from the spec as the small closed
enumeration with a success and a failure value. -/
inductive ES_ResultCode where
  | Success
  | Error
deriving DecidableEq

/-- Found code of a search-style wrapper call: the enumeration ES_FoundCode
used by USpice entry points such as bodc2n and ckfrot, with a found and a
not-found value. -/
inductive ES_FoundCode where
  | Found
  | NotFound
deriving DecidableEq

/-- Modelled from the spec: the process-wide error state owned by the
underlying library (behind USpice::reset, USpice::get_implied_result and
USpice::raise_spice_error, whose implementations in Spice.cpp are not in the
repository).  Its attributes, per the spec's data model, are a triggered
flag, a short error identifier and a long-form descriptive message. -/
structure ErrorState where
  triggered : Bool
  shortText : String
  longText : String
deriving DecidableEq

/-- The cleared error state: no error triggered, no error text. -/
def ErrorState.cleared : ErrorState := ⟨false, "", ""⟩

/-- Modelled from the spec: the intrinsic outcome of one underlying library
call.  The call either succeeds and populates its outputs, or fails
internally, in which case it sets the global error state with short and long
error text. -/
inductive LibOutcome (α : Type) where
  | ok (out : α)
  | err (shortText longText : String)
deriving DecidableEq

/-- Modelled from the spec: invoking a library call mutates the global error
state.  A failing call sets the triggered flag and the short and long error
text; a succeeding call leaves the state untouched and yields its output. -/
def invoke {α : Type} (op : LibOutcome α) (es : ErrorState) : ErrorState × Option α :=
  match op with
  | .ok v => (es, some v)
  | .err s l => (⟨true, s, l⟩, none)

/-- Modelled from the spec: the error message captured by the wrapper when
the error indicator is set, built from the short and long error text read
out of the global error state. -/
def capturedMessage (shortText longText : String) : String :=
  shortText ++ longText

/-- Result of a wrapper call as seen by the caller: the structured result
code, the error message and the optional output payload. -/
structure WrapResult (α : Type) where
  resultCode : ES_ResultCode
  errorMessage : String
  output : Option α
deriving DecidableEq

/-- Modelled from the spec: the error-translating call wrapper shared by the
USpice entry points (Spice.cpp is not in the repository; Spice.h declares the
entry points and the spec gives the behavior).  It clears any pre-existing
error state defensively, invokes the library call, then queries the error
indicator: if no error is indicated it returns a Success result code with an
empty message and the outputs passed through unchanged; if an error is
indicated it captures the short and long error text, resets the global error
state and returns an Error result code carrying the captured message. -/
def wrap {α : Type} (op : LibOutcome α) (_es : ErrorState) : WrapResult α × ErrorState :=
  let step := invoke op ErrorState.cleared
  if step.1.triggered then
    ({ resultCode := .Error,
       errorMessage := capturedMessage step.1.shortText step.1.longText,
       output := step.2 },
     ErrorState.cleared)
  else
    ({ resultCode := .Success, errorMessage := "", output := step.2 }, step.1)

/-- Modelled from the spec: a synchronous sequence of wrapper calls threading
the process-wide error state, as issued from the host's single logical
thread.  Every call returns a translated result to the caller. -/
def runCalls {α : Type} : List (LibOutcome α) → ErrorState → List (WrapResult α) × ErrorState
  | [], es => ([], es)
  | op :: rest, es =>
    let first := wrap op es
    let later := runCalls rest first.2
    (first.1 :: later.1, later.2)

/-- Modelled from the spec: a failing library call sets a short error
identifier, a namespaced code string such as SPICE(VALUEOUTOFRANGE) as in
the default argument of USpice::raise_spice_error, so the short text of a
failure is never the empty string. -/
def LibOutcome.wellFormed {α : Type} : LibOutcome α → Prop
  | .ok _ => True
  | .err s _ => s ≠ ""

/-- Modelled from the spec: the intrinsic outcome of a search-style library
call, whose successful outcome either carries the searched-for item or
reports its absence, and which can also fail like any other call. -/
inductive SearchOutcome (α : Type) where
  | found (out : α)
  | notFound
  | err (shortText longText : String)
deriving DecidableEq

/-- A search-style library call viewed as a plain library call whose output
is the optional searched-for item. -/
def SearchOutcome.toLib {α : Type} : SearchOutcome α → LibOutcome (Option α)
  | .found v => .ok (some v)
  | .notFound => .ok none
  | .err s l => .err s l

/-- Result of a search-style wrapper call such as USpice::ckfrot: the
structured result code and error message of the error translation, plus the
found code reporting presence or absence of the searched-for item. -/
structure SearchResult (α : Type) where
  resultCode : ES_ResultCode
  errorMessage : String
  foundCode : ES_FoundCode
  output : Option α
deriving DecidableEq

/-- Modelled from the spec: the wrapper for a search-style call.  It applies
the same error translation as wrap, and in addition reports absence of the
searched-for item through the found code: the item is reported Found exactly
when the call succeeded and produced it. -/
def wrapSearch {α : Type} (op : SearchOutcome α) (es : ErrorState) : SearchResult α × ErrorState :=
  let r := wrap op.toLib es
  ({ resultCode := r.1.resultCode,
     errorMessage := r.1.errorMessage,
     foundCode := match r.1.output with
       | some (some _) => .Found
       | _ => .NotFound,
     output := match r.1.output with
       | some (some v) => some v
       | _ => none },
   r.2)

/-- Angular rate payload: the FSAngularRate struct of SpiceTypes.h, modelled
from the spec and the repository's test, which reads its radiansPerSecond
field; the double field is modelled as a rational. -/
structure FSAngularRate where
  radiansPerSecond : ℚ
deriving DecidableEq

/-- Speed payload: the FSSpeed struct of SpiceTypes.h, modelled from the spec
and the repository's test, which reads its kmps field. -/
structure FSSpeed where
  kmps : ℚ
deriving DecidableEq

/-- Geodetic vector rates payload: the FSGeodeticVectorRates struct of
SpiceTypes.h, modelled from the repository's test
FSGeodeticVectorRatesTest.DefaultConstruction_IsInitialized, which reads the
dlon, dlat and dalt components. -/
structure FSGeodeticVectorRates where
  dlon : FSAngularRate
  dlat : FSAngularRate
  dalt : FSSpeed
deriving DecidableEq

/-- Modelled from the spec: default construction of FSAngularRate
(SpiceTypes.h is not in the repository; the spec states that construction
produces a deterministic, documented zero state). -/
def FSAngularRate.defaultConstructed : FSAngularRate := ⟨0⟩

/-- Modelled from the spec: default construction of FSSpeed produces the
documented zero state. -/
def FSSpeed.defaultConstructed : FSSpeed := ⟨0⟩

/-- Modelled from the spec: default construction of FSGeodeticVectorRates
default-constructs each component. -/
def FSGeodeticVectorRates.defaultConstructed : FSGeodeticVectorRates :=
  ⟨FSAngularRate.defaultConstructed, FSAngularRate.defaultConstructed,
   FSSpeed.defaultConstructed⟩

/-- One entry point declared on the USpice class in Spice.h: its name and
whether its parameter list declares an ES_ResultCode output, an ErrorMessage
output and an ES_FoundCode output. -/
structure EntryPoint where
  name : String
  hasResultCode : Bool
  hasErrorMessage : Bool
  hasFoundCode : Bool
deriving DecidableEq

/-- Entries 0 to 47 of the USpice entry point signature table, transcribed
from Spice.h in declaration order. -/
def spiceEntryPointsChunk0 : List EntryPoint :=
  [
   EntryPoint.mk "enumerate_kernels" true true false,
   EntryPoint.mk "furnsh" true true false,
   EntryPoint.mk "furnsh_list" true true false,
   EntryPoint.mk "combine_paths" false false false,
   EntryPoint.mk "clear_all" false false false,
   EntryPoint.mk "unload" true true false,
   EntryPoint.mk "init_all" false false false,
   EntryPoint.mk "get_erract" false false false,
   EntryPoint.mk "get_errdev" false false false,
   EntryPoint.mk "get_errprt" false false false,
   EntryPoint.mk "set_erract" false false false,
   EntryPoint.mk "set_errdev" false false false,
   EntryPoint.mk "set_errprt" false false false,
   EntryPoint.mk "reset" false false false,
   EntryPoint.mk "axisar" false false false,
   EntryPoint.mk "azlcpo" true true false,
   EntryPoint.mk "azlrec" false false false,
   EntryPoint.mk "bodfnd" false false true,
   EntryPoint.mk "bodc2n" false false true,
   EntryPoint.mk "boddef" false false false,
   EntryPoint.mk "bods2c" false false true,
   EntryPoint.mk "bodn2c" false false true,
   EntryPoint.mk "bodvcd_scalar" true true false,
   EntryPoint.mk "bodvcd_vector" true true false,
   EntryPoint.mk "bodvcd_mass" true true false,
   EntryPoint.mk "bodvcd_distance_vector" true true false,
   EntryPoint.mk "bodvrd_scalar" true true false,
   EntryPoint.mk "bodvrd_vector" true true false,
   EntryPoint.mk "bodvrd_mass" true true false,
   EntryPoint.mk "bodvrd_distance_vector" true true false,
   EntryPoint.mk "bsrchd" false false false,
   EntryPoint.mk "cgv2el" true true false,
   EntryPoint.mk "ckcls" true true false,
   EntryPoint.mk "ckcov" true true false,
   EntryPoint.mk "ckfrot" true true true,
   EntryPoint.mk "ckfxfm" true true true,
   EntryPoint.mk "ckgp" true true false,
   EntryPoint.mk "ckgpav" true true false,
   EntryPoint.mk "cklpf" true true false,
   EntryPoint.mk "ckobj" true true false,
   EntryPoint.mk "ckopn" true true false,
   EntryPoint.mk "ckupf" false false false,
   EntryPoint.mk "ckw01" true true false,
   EntryPoint.mk "ckw02" true true false,
   EntryPoint.mk "ckw03" true true false,
   EntryPoint.mk "ckw05" true true false,
   EntryPoint.mk "clight" false false false,
   EntryPoint.mk "conics" true true false]

/-- Entries 48 to 95 of the USpice entry point signature table, transcribed
from Spice.h in declaration order. -/
def spiceEntryPointsChunk1 : List EntryPoint :=
  [
   EntryPoint.mk "cyllat" false false false,
   EntryPoint.mk "convrt" true true false,
   EntryPoint.mk "dafac" true true false,
   EntryPoint.mk "dskobj" true true false,
   EntryPoint.mk "dsksrf" true true false,
   EntryPoint.mk "dskz02" true true false,
   EntryPoint.mk "dskp02" true true false,
   EntryPoint.mk "dskn02" true true false,
   EntryPoint.mk "dskv02" true true false,
   EntryPoint.mk "dskxv" true true false,
   EntryPoint.mk "dskxsi" true true false,
   EntryPoint.mk "cylrec" false false false,
   EntryPoint.mk "cylsph" false false false,
   EntryPoint.mk "dafcls" true true false,
   EntryPoint.mk "dafec" true true false,
   EntryPoint.mk "dafopr" true true false,
   EntryPoint.mk "dafopw" true true false,
   EntryPoint.mk "dasopr" true true false,
   EntryPoint.mk "dascls" false false false,
   EntryPoint.mk "dlabfs" false false true,
   EntryPoint.mk "deltet" true true false,
   EntryPoint.mk "det" false false false,
   EntryPoint.mk "dpmax" false false false,
   EntryPoint.mk "dpmin" false false false,
   EntryPoint.mk "dpr" false false false,
   EntryPoint.mk "eqncpv" false false false,
   EntryPoint.mk "et2lst" true true false,
   EntryPoint.mk "et2utc" true true false,
   EntryPoint.mk "etcal" false false false,
   EntryPoint.mk "eul2m" true true false,
   EntryPoint.mk "eul2xf" true true false,
   EntryPoint.mk "fovray" true true false,
   EntryPoint.mk "fovtrg" true true false,
   EntryPoint.mk "frame" false false false,
   EntryPoint.mk "frinfo" false false true,
   EntryPoint.mk "frmnam" true true false,
   EntryPoint.mk "gcpool" true true false,
   EntryPoint.mk "gdpool" true true false,
   EntryPoint.mk "gdpool_scalar" true true false,
   EntryPoint.mk "gdpool_distance" true true false,
   EntryPoint.mk "gdpool_vector" true true false,
   EntryPoint.mk "gdpool_mass" true true false,
   EntryPoint.mk "getgeophs" false false false,
   EntryPoint.mk "getelm" true true false,
   EntryPoint.mk "evsgp4" true true false,
   EntryPoint.mk "ev2lin" true true false,
   EntryPoint.mk "georec" true true false,
   EntryPoint.mk "getfov" true true false]

/-- Entries 96 to 143 of the USpice entry point signature table, transcribed
from Spice.h in declaration order. -/
def spiceEntryPointsChunk2 : List EntryPoint :=
  [
   EntryPoint.mk "getfat" true true false,
   EntryPoint.mk "gfdist" true true false,
   EntryPoint.mk "gfilum" true true false,
   EntryPoint.mk "gfpa" true true false,
   EntryPoint.mk "gfoclt" true true false,
   EntryPoint.mk "gfposc" true true false,
   EntryPoint.mk "gftfov" true true false,
   EntryPoint.mk "gfrfov" true true false,
   EntryPoint.mk "gfrr" true true false,
   EntryPoint.mk "gfsep" true true false,
   EntryPoint.mk "gfsntc" true true false,
   EntryPoint.mk "gfstol" false false false,
   EntryPoint.mk "gfsubc" true true false,
   EntryPoint.mk "gipool" true true false,
   EntryPoint.mk "gnpool" true true false,
   EntryPoint.mk "hrmint" true true false,
   EntryPoint.mk "halfpi" false false false,
   EntryPoint.mk "halfpi_angle" false false false,
   EntryPoint.mk "ident" false false false,
   EntryPoint.mk "illumf" true true false,
   EntryPoint.mk "illumg" true true false,
   EntryPoint.mk "ilumin" true true false,
   EntryPoint.mk "inelpl" true true false,
   EntryPoint.mk "intmax" false false false,
   EntryPoint.mk "intmin" false false false,
   EntryPoint.mk "invert" true true false,
   EntryPoint.mk "invort" true true false,
   EntryPoint.mk "invstm" false false false,
   EntryPoint.mk "b1900" false false false,
   EntryPoint.mk "b1950" false false false,
   EntryPoint.mk "j1900" false false false,
   EntryPoint.mk "j1950" false false false,
   EntryPoint.mk "j2000" false false false,
   EntryPoint.mk "j2100" false false false,
   EntryPoint.mk "jyear" false false false,
   EntryPoint.mk "tyear" false false false,
   EntryPoint.mk "jyear_period" false false false,
   EntryPoint.mk "tyear_period" false false false,
   EntryPoint.mk "kdata" false false true,
   EntryPoint.mk "kinfo" false false true,
   EntryPoint.mk "ktotal" false false false,
   EntryPoint.mk "latcyl" false false false,
   EntryPoint.mk "latrec" false false false,
   EntryPoint.mk "latsph" false false false,
   EntryPoint.mk "latsrf" true true false,
   EntryPoint.mk "lgrind" true true false,
   EntryPoint.mk "limbpt" true true false,
   EntryPoint.mk "lspcn" true true false]

/-- Entries 144 to 191 of the USpice entry point signature table, transcribed
from Spice.h in declaration order. -/
def spiceEntryPointsChunk3 : List EntryPoint :=
  [
   EntryPoint.mk "mequ" false false false,
   EntryPoint.mk "mxvg" false false false,
   EntryPoint.mk "mxv_state" false false false,
   EntryPoint.mk "mtxv_state" false false false,
   EntryPoint.mk "m2q" true true false,
   EntryPoint.mk "mxm" false false false,
   EntryPoint.mk "mxmt" false false false,
   EntryPoint.mk "mtxv" false false false,
   EntryPoint.mk "mtxv_distance" false false false,
   EntryPoint.mk "mtxv_velocity" false false false,
   EntryPoint.mk "mtxv_angular" false false false,
   EntryPoint.mk "mxv_angular" false false false,
   EntryPoint.mk "mtxm" false false false,
   EntryPoint.mk "m2eul" true true false,
   EntryPoint.mk "mxv_distance" false false false,
   EntryPoint.mk "mxv_velocity" false false false,
   EntryPoint.mk "mxv" false false false,
   EntryPoint.mk "namfrm" true true false,
   EntryPoint.mk "npelpt" true true false,
   EntryPoint.mk "nearpt" true true false,
   EntryPoint.mk "npedln" true true false,
   EntryPoint.mk "nplnpt" true true false,
   EntryPoint.mk "nvc2pl" true true false,
   EntryPoint.mk "nvp2pl" true true false,
   EntryPoint.mk "occult" true true false,
   EntryPoint.mk "oscelt" true true false,
   EntryPoint.mk "oscltx" true true false,
   EntryPoint.mk "pckcov" true true false,
   EntryPoint.mk "pckfrm" true true false,
   EntryPoint.mk "pcpool_list" true true false,
   EntryPoint.mk "pcpool" true true false,
   EntryPoint.mk "pdpool_list" true true false,
   EntryPoint.mk "pdpool" true true false,
   EntryPoint.mk "pgrrec" true true false,
   EntryPoint.mk "phaseq" true true false,
   EntryPoint.mk "pi" false false false,
   EntryPoint.mk "pi_angle" false false false,
   EntryPoint.mk "pipool_list" true true false,
   EntryPoint.mk "pipool" true true false,
   EntryPoint.mk "pjelpl" true true false,
   EntryPoint.mk "pl2nvc" false false false,
   EntryPoint.mk "pl2nvp" true true false,
   EntryPoint.mk "pl2psv" false false false,
   EntryPoint.mk "prop2b" true true false,
   EntryPoint.mk "psv2pl" true true false,
   EntryPoint.mk "pxform" true true false,
   EntryPoint.mk "pxfrm2" true true false,
   EntryPoint.mk "q2m" false false false]

/-- Entries 192 to 239 of the USpice entry point signature table, transcribed
from Spice.h in declaration order. -/
def spiceEntryPointsChunk4 : List EntryPoint :=
  [
   EntryPoint.mk "qdq2av" false false false,
   EntryPoint.mk "qxq" false false false,
   EntryPoint.mk "radrec" false false false,
   EntryPoint.mk "rav2xf" false false false,
   EntryPoint.mk "raxisa" true true false,
   EntryPoint.mk "recazl" false false false,
   EntryPoint.mk "reccyl" false false false,
   EntryPoint.mk "recgeo" false false false,
   EntryPoint.mk "reclat" false false false,
   EntryPoint.mk "recpgr" true true false,
   EntryPoint.mk "recrad" false false false,
   EntryPoint.mk "recsph" false false false,
   EntryPoint.mk "rotate" false false false,
   EntryPoint.mk "rotmat" false false false,
   EntryPoint.mk "rotvec" false false false,
   EntryPoint.mk "rpd" false false false,
   EntryPoint.mk "rquad" true true false,
   EntryPoint.mk "scdecd" true true false,
   EntryPoint.mk "sce2c" true true false,
   EntryPoint.mk "sce2s" true true false,
   EntryPoint.mk "sce2t" true true false,
   EntryPoint.mk "scencd" true true false,
   EntryPoint.mk "scfmt" true true false,
   EntryPoint.mk "scpart" true true false,
   EntryPoint.mk "scs2e" true true false,
   EntryPoint.mk "sct2e" true true false,
   EntryPoint.mk "sctiks" true true false,
   EntryPoint.mk "shelld" false false false,
   EntryPoint.mk "shelld_ByIndex" false false false,
   EntryPoint.mk "sincpt" true true false,
   EntryPoint.mk "spkcls" true true false,
   EntryPoint.mk "spkcov" true true false,
   EntryPoint.mk "spkcpo" true true false,
   EntryPoint.mk "spkcpt" true true false,
   EntryPoint.mk "spkcvo" true true false,
   EntryPoint.mk "spkcvt" true true false,
   EntryPoint.mk "spkezp" true true false,
   EntryPoint.mk "spkezr" true true false,
   EntryPoint.mk "spkgeo" true true false,
   EntryPoint.mk "spkgps" true true false,
   EntryPoint.mk "spkpos" true true false,
   EntryPoint.mk "spklef" true true false,
   EntryPoint.mk "spkobj" true true false,
   EntryPoint.mk "spkopa" true true false,
   EntryPoint.mk "spkopn" true true false,
   EntryPoint.mk "spkuef" false false false,
   EntryPoint.mk "spkw05" true true false,
   EntryPoint.mk "spkw15" true true false]

/-- Entries 240 to 287 of the USpice entry point signature table, transcribed
from Spice.h in declaration order. -/
def spiceEntryPointsChunk5 : List EntryPoint :=
  [
   EntryPoint.mk "spd" false false false,
   EntryPoint.mk "sphcyl" false false false,
   EntryPoint.mk "sphlat" false false false,
   EntryPoint.mk "sphrec" false false false,
   EntryPoint.mk "srfrec" true true false,
   EntryPoint.mk "srfc2s" false false true,
   EntryPoint.mk "srfcss" false false true,
   EntryPoint.mk "srfnrm" true true false,
   EntryPoint.mk "srfs2c" false false true,
   EntryPoint.mk "srfscc" false false true,
   EntryPoint.mk "str2et" true true false,
   EntryPoint.mk "subpnt" true true false,
   EntryPoint.mk "subslr" true true false,
   EntryPoint.mk "surfnm" true true false,
   EntryPoint.mk "surfpt" true true false,
   EntryPoint.mk "sxform" true true false,
   EntryPoint.mk "timout" true true false,
   EntryPoint.mk "tisbod" true true false,
   EntryPoint.mk "tparse" true true false,
   EntryPoint.mk "tpictr" true true false,
   EntryPoint.mk "trace" false false false,
   EntryPoint.mk "twopi" false false false,
   EntryPoint.mk "twopi_angle" false false false,
   EntryPoint.mk "twovec" true true false,
   EntryPoint.mk "ucrss" false false false,
   EntryPoint.mk "uddf" false false false,
   EntryPoint.mk "unitim" true true false,
   EntryPoint.mk "unorm_distance" false false false,
   EntryPoint.mk "unorm_velocity" false false false,
   EntryPoint.mk "unorm_angular_velocity" false false false,
   EntryPoint.mk "unorm" false false false,
   EntryPoint.mk "utc2et" true true false,
   EntryPoint.mk "vadd_distance" false false false,
   EntryPoint.mk "vadd_velocity" false false false,
   EntryPoint.mk "vadd_angular_velocity" false false false,
   EntryPoint.mk "vadd" false false false,
   EntryPoint.mk "vcrss" false false false,
   EntryPoint.mk "vdist" false false false,
   EntryPoint.mk "vdist_distance" false false false,
   EntryPoint.mk "vdist_velocity" false false false,
   EntryPoint.mk "vdot" false false false,
   EntryPoint.mk "vdot_distance" false false false,
   EntryPoint.mk "vdot_velocity" false false false,
   EntryPoint.mk "vequ" false false false,
   EntryPoint.mk "vequ_distance" false false false,
   EntryPoint.mk "vequ_velocity" false false false,
   EntryPoint.mk "vequ_angular_velocity" false false false,
   EntryPoint.mk "vhat" false false false]

/-- Entries 288 to 335 of the USpice entry point signature table, transcribed
from Spice.h in declaration order. -/
def spiceEntryPointsChunk6 : List EntryPoint :=
  [
   EntryPoint.mk "vhat_distance" false false false,
   EntryPoint.mk "vhat_velocity" false false false,
   EntryPoint.mk "vhat_angular_velocity" false false false,
   EntryPoint.mk "vlcom3" false false false,
   EntryPoint.mk "vlcom3_distance" false false false,
   EntryPoint.mk "vlcom" false false false,
   EntryPoint.mk "vlcom_distance" false false false,
   EntryPoint.mk "vminus" false false false,
   EntryPoint.mk "vminus_distance" false false false,
   EntryPoint.mk "vminus_velocity" false false false,
   EntryPoint.mk "vnorm" false false false,
   EntryPoint.mk "vnorm_distance" false false false,
   EntryPoint.mk "vnorm_velocity" false false false,
   EntryPoint.mk "vpack" false false false,
   EntryPoint.mk "vpack_distance" false false false,
   EntryPoint.mk "vpack_velocity" false false false,
   EntryPoint.mk "vpack_state" false false false,
   EntryPoint.mk "vperp" false false false,
   EntryPoint.mk "vprjp" true true false,
   EntryPoint.mk "vproj" false false false,
   EntryPoint.mk "vrel" false false false,
   EntryPoint.mk "vrotv" false false false,
   EntryPoint.mk "vscl" false false false,
   EntryPoint.mk "vscl_distance" false false false,
   EntryPoint.mk "vscl_velocity" false false false,
   EntryPoint.mk "vsep" false false false,
   EntryPoint.mk "vsub" false false false,
   EntryPoint.mk "vsub_distance" false false false,
   EntryPoint.mk "vsub_velocity" false false false,
   EntryPoint.mk "vtmv" false false false,
   EntryPoint.mk "vupack" false false false,
   EntryPoint.mk "vupack_distance" false false false,
   EntryPoint.mk "vupack_velocity" false false false,
   EntryPoint.mk "vupack_state" false false false,
   EntryPoint.mk "vzero" false false false,
   EntryPoint.mk "xf2eul" true true false,
   EntryPoint.mk "xf2rav" false false false,
   EntryPoint.mk "xfmsta" true true false,
   EntryPoint.mk "xpose" false false false,
   EntryPoint.mk "et_now" false false false,
   EntryPoint.mk "FlatteningCoefficient" false false false,
   EntryPoint.mk "SwizzleToUE" false false false,
   EntryPoint.mk "SwizzleToSpice" false false false,
   EntryPoint.mk "SwizzleToUE" false false false,
   EntryPoint.mk "SwizzleToSpice" false false false,
   EntryPoint.mk "get_implied_result" true true false,
   EntryPoint.mk "raise_spice_error" false false false,
   EntryPoint.mk "furnsh_absolute" false false false]

/-- Signature table of the 336 static entry points declared on the USpice
class in Spice.h, in declaration order, transcribed from the header. -/
def spiceEntryPoints : List EntryPoint :=
  spiceEntryPointsChunk0 ++ spiceEntryPointsChunk1 ++ spiceEntryPointsChunk2 ++ spiceEntryPointsChunk3 ++ spiceEntryPointsChunk4 ++ spiceEntryPointsChunk5 ++ spiceEntryPointsChunk6

/-- Modelled from the spec: the observable library state a wrapper call can
depend on, namely the set of loaded kernel files and the global error
state. -/
structure SpiceState where
  loadedKernels : List String
  errorState : ErrorState
deriving DecidableEq

/-- Modelled from the spec: USpice::clight (its implementation in Spice.cpp
is not in the repository).  The declaration in Spice.h documents that the
function returns the IAU official value for the speed of light in a vacuum,
299792.458 km/sec, and it is declared BlueprintPure with no result code, so
it is modelled as a pure function of the library state that ignores that
state and writes the constant. -/
def clight (_s : SpiceState) : FSSpeed := ⟨299792458 / 1000⟩

/-- Modelled from the spec: the recursive core of USpice::bsrchd (the
implementation, CSPICE's binary search bsrchd_c called from Spice.cpp, is not
in the repository).  The declaration's tooltip in Spice.h specifies a binary
search for a given value within an array assumed to be in nondecreasing
order, returning the index of the matching entry or -1 when the value is not
found.  The double values are modelled as rationals, which is faithful
because the routine only compares elements.  The search examines the
half-open index interval from lo to hi; raw C array indexing is modelled
with getD, and the search only probes indices below hi. -/
def bsearchAux (value : ℚ) (l : List ℚ) (lo hi : Nat) : Int :=
  if lo < hi then
    if l.getD ((lo + hi) / 2) 0 = value then (((lo + hi) / 2 : Nat) : Int)
    else if value < l.getD ((lo + hi) / 2) 0 then
      bsearchAux value l lo ((lo + hi) / 2)
    else
      bsearchAux value l ((lo + hi) / 2 + 1) hi
  else
    (-1 : Int)
termination_by hi - lo
decreasing_by
  all_goals omega

/-- Modelled from the spec: USpice::bsrchd, a binary search for a value
within an array in nondecreasing order, returning the index of a matching
entry or -1 when the value is not found. -/
def bsrchd (value : ℚ) (valueArray : List ℚ) : Int :=
  bsearchAux value valueArray 0 valueArray.length

/-- Helper: a string append is nonempty when its first part is nonempty. -/
theorem append_left_ne_empty (s l : String) (hs : s ≠ "") : s ++ l ≠ "" := by
  intro hc
  apply hs
  have hdata := congrArg String.data hc
  simp only [String.data_append] at hdata
  rcases List.append_eq_nil.mp hdata with ⟨h1, _⟩
  cases s with
  | mk data => exact congrArg String.mk h1

/-- C4: for every wrapper call during which the underlying library indicates
no error, the wrapper returns a Success result code with an empty error
message, and the output holds exactly the value the library call populated,
unchanged by the error-translation step. -/
theorem wrap_success_passthrough {α : Type} (v : α) (es : ErrorState) :
    wrap (LibOutcome.ok v) es =
      ({ resultCode := ES_ResultCode.Success, errorMessage := "", output := some v },
       ErrorState.cleared) := rfl

/-- C3: for every wrapper call during which the underlying library indicates
an error with short and long error text, the wrapper captures that text,
resets the global error state to cleared, and returns an Error result code
whose error message is the captured text. -/
theorem wrap_error_translation {α : Type} (s l : String) (es : ErrorState) :
    wrap (LibOutcome.err s l : LibOutcome α) es =
      ({ resultCode := ES_ResultCode.Error, errorMessage := capturedMessage s l,
         output := none },
       ErrorState.cleared) := rfl

/-- C1: a wrapper call whose operation fails returns a Failure result with the
global error state cleared before returning, a subsequent independent call
whose own operation succeeds returns a Success result, and more generally the
result of any wrapper call never depends on the error state left by earlier
calls. -/
theorem wrap_no_error_leak {α β : Type} (op₁ : LibOutcome α) (op₂ : LibOutcome β)
    (es : ErrorState) (s l : String) (v : β)
    (hfail : op₁ = LibOutcome.err s l) (hok : op₂ = LibOutcome.ok v) :
    (wrap op₁ es).1.resultCode = ES_ResultCode.Error ∧
    (wrap op₁ es).2 = ErrorState.cleared ∧
    (wrap op₂ (wrap op₁ es).2).1.resultCode = ES_ResultCode.Success ∧
    ∀ {γ : Type} (op : LibOutcome γ) (es₁ es₂ : ErrorState),
      (wrap op es₁).1 = (wrap op es₂).1 := by
  subst hfail hok
  exact ⟨rfl, rfl, rfl, fun _ _ _ => rfl⟩

/-- Witness for C1 at the error text raised by USpice::raise_spice_error's
default arguments, followed by a succeeding call. -/
theorem wrap_no_error_leak_witness :
    (wrap (LibOutcome.err "SPICE(VALUEOUTOFRANGE)" "This is a test error." :
        LibOutcome Nat) ErrorState.cleared).1.resultCode = ES_ResultCode.Error ∧
    (wrap (LibOutcome.err "SPICE(VALUEOUTOFRANGE)" "This is a test error." :
        LibOutcome Nat) ErrorState.cleared).2 = ErrorState.cleared ∧
    (wrap (LibOutcome.ok 42)
        (wrap (LibOutcome.err "SPICE(VALUEOUTOFRANGE)" "This is a test error." :
          LibOutcome Nat) ErrorState.cleared).2).1.resultCode = ES_ResultCode.Success ∧
    ∀ {γ : Type} (op : LibOutcome γ) (es₁ es₂ : ErrorState),
      (wrap op es₁).1 = (wrap op es₂).1 :=
  wrap_no_error_leak
    (LibOutcome.err "SPICE(VALUEOUTOFRANGE)" "This is a test error.")
    (LibOutcome.ok 42) ErrorState.cleared
    "SPICE(VALUEOUTOFRANGE)" "This is a test error." 42 rfl rfl

/-- C2: for every wrapper call whose failing operations set a nonempty short
error identifier, a Success result carries the empty error message and an
Error result carries a nonempty error message. -/
theorem wrap_message_discipline {α : Type} (op : LibOutcome α) (es : ErrorState)
    (hwf : op.wellFormed) :
    ((wrap op es).1.resultCode = ES_ResultCode.Success →
      (wrap op es).1.errorMessage = "") ∧
    ((wrap op es).1.resultCode = ES_ResultCode.Error →
      (wrap op es).1.errorMessage ≠ "") := by
  cases op with
  | ok v =>
    refine ⟨fun _ => rfl, fun h => ?_⟩
    simp [wrap, invoke, ErrorState.cleared] at h
  | err s l =>
    refine ⟨fun h => ?_, fun _ => ?_⟩
    · simp [wrap, invoke, ErrorState.cleared] at h
    · exact append_left_ne_empty s l hwf

/-- Witness for C2 at a succeeding call and at the error text raised by
USpice::raise_spice_error's default arguments. -/
theorem wrap_message_discipline_witness :
    (LibOutcome.err "SPICE(VALUEOUTOFRANGE)" "This is a test error." :
      LibOutcome Nat).wellFormed ∧
    (((wrap (LibOutcome.err "SPICE(VALUEOUTOFRANGE)" "This is a test error." :
        LibOutcome Nat) ErrorState.cleared).1.resultCode = ES_ResultCode.Success →
      (wrap (LibOutcome.err "SPICE(VALUEOUTOFRANGE)" "This is a test error." :
        LibOutcome Nat) ErrorState.cleared).1.errorMessage = "") ∧
     ((wrap (LibOutcome.err "SPICE(VALUEOUTOFRANGE)" "This is a test error." :
        LibOutcome Nat) ErrorState.cleared).1.resultCode = ES_ResultCode.Error →
      (wrap (LibOutcome.err "SPICE(VALUEOUTOFRANGE)" "This is a test error." :
        LibOutcome Nat) ErrorState.cleared).1.errorMessage ≠ "")) :=
  ⟨by simp [LibOutcome.wellFormed],
   wrap_message_discipline
     (LibOutcome.err "SPICE(VALUEOUTOFRANGE)" "This is a test error.")
     ErrorState.cleared (by simp [LibOutcome.wellFormed])⟩

/-- C5: every wrapper call's result code is either Success or Error; a
search-style wrapper call reports absence of the searched-for item as the
NotFound outcome, which occurs exactly when the search succeeded without
finding the item, so absence is distinguishable both from a found item and
from a library error. -/
theorem wrapSearch_taxonomy {α : Type} (op : SearchOutcome α) (es : ErrorState) :
    ((wrapSearch op es).1.resultCode = ES_ResultCode.Success ∨
     (wrapSearch op es).1.resultCode = ES_ResultCode.Error) ∧
    (((wrapSearch op es).1.resultCode = ES_ResultCode.Success ∧
      (wrapSearch op es).1.foundCode = ES_FoundCode.NotFound) ↔
        op = SearchOutcome.notFound) ∧
    (∀ v : α, op = SearchOutcome.found v →
      (wrapSearch op es).1.resultCode = ES_ResultCode.Success ∧
      (wrapSearch op es).1.foundCode = ES_FoundCode.Found) ∧
    (∀ s l : String, op = SearchOutcome.err s l →
      (wrapSearch op es).1.resultCode = ES_ResultCode.Error) := by
  cases op <;>
    simp [wrapSearch, wrap, invoke, SearchOutcome.toLib, ErrorState.cleared]

/-- Witness for C5 at a search that succeeds without finding the item. -/
theorem wrapSearch_taxonomy_witness :
    (wrapSearch (SearchOutcome.notFound : SearchOutcome Nat)
      ErrorState.cleared).1.resultCode = ES_ResultCode.Success ∧
    (wrapSearch (SearchOutcome.notFound : SearchOutcome Nat)
      ErrorState.cleared).1.foundCode = ES_FoundCode.NotFound :=
  ((wrapSearch_taxonomy (SearchOutcome.notFound : SearchOutcome Nat)
    ErrorState.cleared).2.1).mpr rfl

set_option maxRecDepth 8000 in
/-- C6: in the signature table of all 336 USpice entry points declared in
Spice.h, an entry point declares a structured ES_ResultCode output exactly
when it also declares an ErrorMessage output, so every entry point that can
report failure carries the full (ResultCode, ErrorMessage) pair. -/
theorem entry_resultCode_iff_errorMessage :
    ∀ e ∈ spiceEntryPoints, e.hasResultCode = e.hasErrorMessage := by
  decide

set_option maxRecDepth 8000 in
/-- Witness for C6 at the furnsh entry point. -/
theorem entry_resultCode_iff_errorMessage_witness :
    EntryPoint.mk "furnsh" true true false ∈ spiceEntryPoints ∧
    (EntryPoint.mk "furnsh" true true false).hasResultCode =
      (EntryPoint.mk "furnsh" true true false).hasErrorMessage :=
  ⟨by decide,
   entry_resultCode_iff_errorMessage (EntryPoint.mk "furnsh" true true false)
     (by decide)⟩

/-- C7: no failure inside the underlying library is fatal to the calling
process: a sequence of wrapper calls returns exactly one translated result
per call, and every single wrapper call hands back a cleared global error
state before control returns to the caller. -/
theorem runCalls_never_fatal {α : Type} (ops : List (LibOutcome α)) (es : ErrorState) :
    (runCalls ops es).1.length = ops.length ∧
    ∀ (op : LibOutcome α) (es₀ : ErrorState),
      (wrap op es₀).2 = ErrorState.cleared := by
  constructor
  · induction ops generalizing es with
    | nil => rfl
    | cons op rest ih => simpa [runCalls] using ih (wrap op es).2
  · intro op es₀
    cases op <;> rfl

/-- C8: default construction of the compound output payload
FSGeodeticVectorRates is the deterministic all-zero state, as asserted by the
repository's test DefaultConstruction_IsInitialized. -/
theorem geodeticVectorRates_default_zero :
    FSGeodeticVectorRates.defaultConstructed.dlon.radiansPerSecond = 0 ∧
    FSGeodeticVectorRates.defaultConstructed.dlat.radiansPerSecond = 0 ∧
    FSGeodeticVectorRates.defaultConstructed.dalt.kmps = 0 :=
  ⟨rfl, rfl, rfl⟩

set_option maxRecDepth 8000 in
/-- C10: clight is deterministic and infallible: on every library state it
writes the IAU official value 299792.458 km/sec, its output never depends on
loaded kernels or prior error state, and its entry in the Spice.h signature
table declares neither a result code nor a found code, so it has no failure
outcome. -/
theorem clight_constant :
    (∀ s : SpiceState, clight s = ⟨299792458 / 1000⟩) ∧
    (∀ s₁ s₂ : SpiceState, clight s₁ = clight s₂) ∧
    (spiceEntryPoints.all fun e =>
      e.name != "clight" || (!e.hasResultCode && !e.hasFoundCode)) = true :=
  ⟨fun _ => rfl, fun _ _ => rfl, by decide⟩

/-- Helper: whatever index bsearchAux returns, the array holds the searched
value at that index; otherwise the result is -1.  This direction needs no
sortedness assumption, since the algorithm only returns an index after
comparing the entry there against the value. -/
theorem bsearchAux_sound (value : ℚ) (l : List ℚ) :
    ∀ (n lo hi : Nat), hi ≤ l.length → hi - lo ≤ n →
      bsearchAux value l lo hi = -1 ∨
      ∃ (i : Nat) (h : i < l.length),
        bsearchAux value l lo hi = (i : Int) ∧ l.get ⟨i, h⟩ = value := by
  intro n
  induction n with
  | zero =>
    intro lo hi hhi hle
    rw [bsearchAux, if_neg (by omega : ¬ lo < hi)]
    left
    rfl
  | succ n ih =>
    intro lo hi hhi hle
    rw [bsearchAux]
    by_cases hlt : lo < hi
    · rw [if_pos hlt]
      have hm : (lo + hi) / 2 < l.length := by omega
      by_cases hx : l.getD ((lo + hi) / 2) 0 = value
      · rw [if_pos hx]
        right
        refine ⟨(lo + hi) / 2, hm, rfl, ?_⟩
        rw [List.get_eq_getElem, ← List.getD_eq_getElem l 0 hm]
        exact hx
      · rw [if_neg hx]
        by_cases hv : value < l.getD ((lo + hi) / 2) 0
        · rw [if_pos hv]
          exact ih lo ((lo + hi) / 2) (by omega) (by omega)
        · rw [if_neg hv]
          exact ih ((lo + hi) / 2 + 1) hi hhi (by omega)
    · rw [if_neg hlt]
      left
      rfl

/-- Helper: when the array is in nondecreasing order and the searched value
occurs in the probed interval, bsearchAux does not answer -1: each comparison
discards only a half that cannot contain the value. -/
theorem bsearchAux_complete (value : ℚ) (l : List ℚ) (hs : l.Sorted (· ≤ ·)) :
    ∀ (n lo hi : Nat), hi ≤ l.length → hi - lo ≤ n →
      (∃ (i : Nat) (h : i < l.length),
        lo ≤ i ∧ i < hi ∧ l.get ⟨i, h⟩ = value) →
      bsearchAux value l lo hi ≠ -1 := by
  intro n
  induction n with
  | zero =>
    intro lo hi hhi hle hex
    rcases hex with ⟨i, h, hloi, hihi, hget⟩
    omega
  | succ n ih =>
    intro lo hi hhi hle hex
    rcases hex with ⟨i, h, hloi, hihi, hget⟩
    have hlt : lo < hi := by omega
    rw [bsearchAux, if_pos hlt]
    have hm : (lo + hi) / 2 < l.length := by omega
    by_cases hx : l.getD ((lo + hi) / 2) 0 = value
    · rw [if_pos hx]
      intro hc
      omega
    · rw [if_neg hx]
      have hxget : l.getD ((lo + hi) / 2) 0 = l.get ⟨(lo + hi) / 2, hm⟩ := by
        rw [List.get_eq_getElem, List.getD_eq_getElem l 0 hm]
      by_cases hv : value < l.getD ((lo + hi) / 2) 0
      · rw [if_pos hv]
        refine ih lo ((lo + hi) / 2) (by omega) (by omega) ⟨i, h, hloi, ?_, hget⟩
        by_contra hcon
        have hmi : ((⟨(lo + hi) / 2, hm⟩ : Fin l.length) : Nat) ≤
            (⟨i, h⟩ : Fin l.length) := by
          simp
          omega
        have := hs.rel_get_of_le (Fin.le_def.mpr hmi)
        rw [hget, ← hxget] at this
        exact absurd (lt_of_lt_of_le hv this) (lt_irrefl _)
      · rw [if_neg hv]
        have hvgt : l.getD ((lo + hi) / 2) 0 < value := by
          rcases lt_or_eq_of_le (not_lt.mp hv) with hlt2 | heq
          · exact hlt2
          · exact absurd heq hx
        refine ih ((lo + hi) / 2 + 1) hi hhi (by omega) ⟨i, h, ?_, hihi, hget⟩
        by_contra hcon
        have him : ((⟨i, h⟩ : Fin l.length) : Nat) ≤
            (⟨(lo + hi) / 2, hm⟩ : Fin l.length) := by
          simp
          omega
        have := hs.rel_get_of_le (Fin.le_def.mpr him)
        rw [hget, ← hxget] at this
        exact absurd (lt_of_lt_of_le hvgt this) (lt_irrefl _)

/-- C9: for every array in nondecreasing order and every key value, bsrchd
returns an index at which the array holds an entry equal to the key whenever
such an entry exists, and returns -1 when no entry equals the key. -/
theorem bsrchd_correct (value : ℚ) (l : List ℚ) (hs : l.Sorted (· ≤ ·)) :
    (value ∈ l → ∃ (i : Nat) (h : i < l.length),
        bsrchd value l = (i : Int) ∧ l.get ⟨i, h⟩ = value) ∧
    (value ∉ l → bsrchd value l = -1) := by
  constructor
  · intro hmem
    rcases List.mem_iff_get.mp hmem with ⟨⟨j, hj⟩, hget⟩
    have hne := bsearchAux_complete value l hs l.length 0 l.length (le_refl _)
      (by omega) ⟨j, hj, Nat.zero_le _, hj, hget⟩
    rcases bsearchAux_sound value l l.length 0 l.length (le_refl _) (by omega) with
      hneg | hex
    · exact absurd hneg hne
    · exact hex
  · intro hnmem
    rcases bsearchAux_sound value l l.length 0 l.length (le_refl _) (by omega) with
      hneg | hex
    · exact hneg
    · rcases hex with ⟨i, h, _, hget⟩
      exact absurd (List.mem_iff_get.mpr ⟨⟨i, h⟩, hget⟩) hnmem

/-- Witness for C9 at the nondecreasing array 1, 3, 5 and the key 3. -/
theorem bsrchd_correct_witness :
    List.Sorted (· ≤ ·) [(1 : ℚ), 3, 5] ∧
    (((3 : ℚ) ∈ [(1 : ℚ), 3, 5] →
        ∃ (i : Nat) (h : i < ([(1 : ℚ), 3, 5] : List ℚ).length),
          bsrchd 3 [(1 : ℚ), 3, 5] = (i : Int) ∧
          ([(1 : ℚ), 3, 5] : List ℚ).get ⟨i, h⟩ = 3) ∧
      ((3 : ℚ) ∉ [(1 : ℚ), 3, 5] → bsrchd 3 [(1 : ℚ), 3, 5] = -1)) :=
  ⟨by decide, bsrchd_correct 3 [(1 : ℚ), 3, 5] (by decide)⟩
